import Mathlib

/-!
Verification development for the neuro-toolkit repository: a shallow
embedding of the session-scoped landmark-delta scoring logic of the three
mini-tools (facial-nerve symmetry scoring, dexterity/tremor trajectory
statistics, speech-acoustic analysis) together with proofs about it.

Pixel coordinates are integers (the code casts detector output with
`int(lm.x * w)`); exact ratio arithmetic is modelled over the rationals,
and Euclidean distances / standard deviations over the reals.
-/

namespace NeuroToolkit

/-! ## Shared geometry: `_get_dist` of facial_nerve.py and the `np.sqrt`
distance of neuro_steady.py compute the same Euclidean distance. -/

/-- Euclidean distance between two integer pixel points, as in
`math.sqrt((p1[0] - p2[0])**2 + (p1[1] - p2[1])**2)`. -/
noncomputable def euclidDist (p q : ℤ × ℤ) : ℝ :=
  Real.sqrt (((p.1 - q.1 : ℤ) : ℝ) ^ 2 + ((p.2 - q.2 : ℤ) : ℝ) ^ 2)

/-! ## Facial nerve tool (src/projects/facial_nerve.py) -/

/-- A Landmark Snapshot: the nine named facial points extracted each frame
from the FACIAL_LANDMARKS indices, each an integer pixel pair. -/
structure Coords where
  mouth_left : ℤ × ℤ
  mouth_right : ℤ × ℤ
  eyebrow_left : ℤ × ℤ
  eyebrow_right : ℤ × ℤ
  eye_top_left : ℤ × ℤ
  eye_bottom_left : ℤ × ℤ
  eye_top_right : ℤ × ℤ
  eye_bottom_right : ℤ × ℤ
  nose_tip : ℤ × ℤ
  deriving DecidableEq

/-- The task strings accepted by the facial tool's selectbox. -/
inductive FaceTask where
  | noTask
  | setBaseline
  | smile
  | raiseEyebrows
  | closeEyesTightly
  deriving DecidableEq

/-- The mutable session state of the facial tool: the transformer's
`self.task` together with `st.session_state.baseline_coords`. -/
structure FaceState where
  task : FaceTask
  baseline : Option Coords
  deriving DecidableEq

/-- `FacialNerveTransformer.set_task`: store the task and, when it is
"Set Baseline", reset the baseline to `None`. -/
def FaceState.set_task (st : FaceState) (t : FaceTask) : FaceState :=
  { task := t
    baseline := if t = FaceTask.setBaseline then none else st.baseline }

/-- Smile metric, left side: `abs(coords["mouth_left"][0] - baseline["mouth_left"][0])`. -/
def smileLeft (b c : Coords) : ℤ := |c.mouth_left.1 - b.mouth_left.1|

/-- Smile metric, right side: `abs(coords["mouth_right"][0] - baseline["mouth_right"][0])`. -/
def smileRight (b c : Coords) : ℤ := |c.mouth_right.1 - b.mouth_right.1|

/-- Eyebrow-raise metric, left side: `baseline["eyebrow_left"][1] - coords["eyebrow_left"][1]`
(signed; upward motion is positive). -/
def raiseLeft (b c : Coords) : ℤ := b.eyebrow_left.2 - c.eyebrow_left.2

/-- Eyebrow-raise metric, right side: `baseline["eyebrow_right"][1] - coords["eyebrow_right"][1]`. -/
def raiseRight (b c : Coords) : ℤ := b.eyebrow_right.2 - c.eyebrow_right.2

/-- Left eyelid gap: `_get_dist(coords["eye_top_left"], coords["eye_bottom_left"])`. -/
noncomputable def eyeLeft (c : Coords) : ℝ := euclidDist c.eye_top_left c.eye_bottom_left

/-- Right eyelid gap: `_get_dist(coords["eye_top_right"], coords["eye_bottom_right"])`. -/
noncomputable def eyeRight (c : Coords) : ℝ := euclidDist c.eye_top_right c.eye_bottom_right

/-- The symmetry ratio `min(left, right) / max(left, right) * 100`, computed
with exact rational arithmetic over the integer metric pair. -/
def symmetryScore (l r : ℤ) : ℚ := (min l r : ℚ) / (max l r : ℚ) * 100

/-- One on-screen annotation produced by a facial-tool frame (the
`cv2.putText` overlays that carry information). -/
inductive Display where
  | baselineSet
  | smileSymmetry (score : ℚ)
  | eyebrowSymmetry (score : ℚ)
  | eyeClosure (left : ℝ) (right : ℝ)

open Classical in
/-- `FacialNerveTransformer.transform`, restricted to what the frame does to
the session state and which informational overlays it draws.  `detected` is
`some c` when the face-mesh detector returns a face whose snapshot is `c`,
and `none` when no face is detected (in which case the body is skipped). -/
noncomputable def FaceState.transform (st : FaceState) (detected : Option Coords) :
    FaceState × List Display :=
  match detected with
  | none => (st, [])
  | some coords =>
    let baseline1 : Option Coords :=
      if st.task = FaceTask.setBaseline then some coords else st.baseline
    let d0 : List Display :=
      if st.task = FaceTask.setBaseline then [Display.baselineSet] else []
    match baseline1 with
    | none => ({ st with baseline := none }, d0)
    | some b =>
      let ds : List Display :=
        if st.task = FaceTask.smile then
          (if smileLeft b coords + smileRight b coords > 10 then
            [Display.smileSymmetry (symmetryScore (smileLeft b coords) (smileRight b coords))]
          else [])
        else if st.task = FaceTask.raiseEyebrows then
          (if raiseLeft b coords + raiseRight b coords > 5 then
            [Display.eyebrowSymmetry (symmetryScore (raiseLeft b coords) (raiseRight b coords))]
          else [])
        else if st.task = FaceTask.closeEyesTightly then
          (if eyeLeft coords + eyeRight coords > 0 then
            [Display.eyeClosure (eyeLeft coords) (eyeRight coords)]
          else [])
        else []
      ({ st with baseline := baseline1 }, d0 ++ ds)

/-- Process a list of frames, keeping only the evolving session state. -/
noncomputable def processFrames (st : FaceState) (frames : List (Option Coords)) : FaceState :=
  frames.foldl (fun s d => (s.transform d).1) st

/-! ## Dexterity tool (src/projects/neuro_steady.py) -/

/-- The task strings accepted by the dexterity tool's selectbox. -/
inductive DexTask where
  | noTask
  | holdSteady
  deriving DecidableEq

/-- Target circle centre `TARGET_POS = (320, 240)`. -/
def TARGET_POS : ℤ × ℤ := (320, 240)

/-- Target circle radius `TARGET_RADIUS = 20`. -/
def TARGET_RADIUS : ℤ := 20

/-- The mutable session state of the dexterity tool: the transformer's
`self.task`, `self.start_time`, `self.tracking`, together with the shared
`st.session_state.points` trajectory buffer.  Wall-clock times are modelled
as exact rationals. -/
structure DexState where
  task : DexTask
  start_time : Option ℚ
  tracking : Bool
  points : List (ℤ × ℤ)
  deriving DecidableEq

/-- `DexterityTransformer.set_task(task)` at wall-clock time `now`: store the
task, set `tracking` iff the task is "Hold Steady", and on a tracking task
clear the points buffer and start the clock; otherwise drop the clock. -/
def DexState.set_task (st : DexState) (t : DexTask) (now : ℚ) : DexState :=
  if t = DexTask.holdSteady then
    { task := t, tracking := true, start_time := some now, points := [] }
  else
    { task := t, tracking := false, start_time := none, points := st.points }

/-- The "Start 10-Second Tracking" button handler: `tracking = True`,
`start_time = time.time()`, `st.session_state.points = []`.  The task is not
changed. -/
def startTracking (st : DexState) (now : ℚ) : DexState :=
  { st with tracking := true, start_time := some now, points := [] }

/-- The guard `self.start_time and (time.time() - self.start_time) > 10`:
true when the clock is running and strictly more than 10 seconds elapsed. -/
def timeExceeded (now : ℚ) : Option ℚ → Bool
  | some t0 => decide (now - t0 > 10)
  | none => false

/-- `DexterityTransformer.transform`, restricted to its effect on the session
state.  First, when the task is "Hold Steady" and the 10-second guard fires,
tracking stops (`tracking = False`, `task = "None"`, `start_time = None`) —
the points buffer is untouched.  Then, when a hand is detected and tracking
is (still) on, the fingertip point is appended to the buffer. -/
def DexState.transform (st : DexState) (now : ℚ) (detected : Option (ℤ × ℤ)) : DexState :=
  let st1 :=
    if st.task = DexTask.holdSteady then
      (if timeExceeded now st.start_time then
        { st with tracking := false, task := DexTask.noTask, start_time := none }
      else st)
    else st
  match detected with
  | some p => if st1.tracking then { st1 with points := st1.points ++ [p] } else st1
  | none => st1

/-- Mean of a list of reals, `np.mean`; sum divided by length. -/
noncomputable def listMean (xs : List ℝ) : ℝ := xs.sum / xs.length

/-- Population standard deviation of a list of reals, `np.std`: the square
root of the mean squared deviation from the mean. -/
noncomputable def stdDev (xs : List ℝ) : ℝ :=
  Real.sqrt (listMean (xs.map (fun x => (x - listMean xs) ^ 2)))

/-- `steadiness_score = np.mean([np.std(xs), np.std(ys)])`: the average of
the coordinate-wise standard deviations of the buffer. -/
noncomputable def steadiness (pts : List (ℤ × ℤ)) : ℝ :=
  (stdDev (pts.map (fun p => (p.1 : ℝ))) + stdDev (pts.map (fun p => (p.2 : ℝ)))) / 2

/-- `precision_score = np.mean(distances)`: the mean Euclidean distance of
the buffer points from `TARGET_POS`. -/
noncomputable def precision (pts : List (ℤ × ℤ)) : ℝ :=
  listMean (pts.map (fun p => euclidDist p TARGET_POS))

/-- The "Analyze Results" button: with an empty buffer it only warns
(`none`, the NoData outcome); otherwise it computes and shows the
steadiness and precision scores of the current buffer. -/
noncomputable def analyzeResults (pts : List (ℤ × ℤ)) : Option (ℝ × ℝ) :=
  if pts = [] then none else some (steadiness pts, precision pts)

/-! ## Speech tool (src/projects/dysarthria.py) -/

/-- The raw values the external acoustic collaborators (parselmouth/praat and
librosa) return when none of the calls raises: the four praat scalars and the
librosa onset-time sequence. -/
structure AcousticRaw where
  mean_pitch : ℚ
  jitter : ℚ
  shimmer : ℚ
  hnr : ℚ
  onsets : List ℚ
  deriving DecidableEq

/-- The five metrics of a successful analysis (the values behind the five
formatted strings of the result dict). -/
structure SpeechMetrics where
  mean_pitch : ℚ
  jitter : ℚ
  shimmer : ℚ
  hnr : ℚ
  ddk_rate : ℚ
  deriving DecidableEq

/-- The result dict of `analyze_speech`: either the five metrics or a dict
holding a single "Error" message. -/
inductive SpeechResult where
  | metrics (m : SpeechMetrics)
  | error (msg : String)
  deriving DecidableEq

/-- Python's substring membership `pat in s`, on character lists: true when
`pat` occurs contiguously inside `s`. -/
def charsContain (pat : List Char) : List Char → Bool
  | [] => decide (pat = [])
  | c :: cs => pat.isPrefixOf (c :: cs) || charsContain pat cs

/-- Python's `pat in s` on strings. -/
def strContains (s pat : String) : Bool := charsContain pat.data s.data

/-- The fixed message returned when the exception text mentions "Pitch". -/
def pitchErrorMsg : String :=
  "Could not detect a clear pitch. Please record again, speaking clearly and avoiding background noise."

/-- The generic message `"An error occurred: {e}"`. -/
def genericErrorMsg (e : String) : String := "An error occurred: " ++ e

/-- `ddk_rate = (len(onsets) - 1) / (onsets[-1] - onsets[0]) if len(onsets) > 1 else 0`.
With at most one onset the guard yields 0; with two or more onsets at the
same instant Python raises a float division by zero (carried here as an
`Except.error`, to be caught by the surrounding handler). -/
def ddkRate (onsets : List ℚ) : Except String ℚ :=
  if 1 < onsets.length then
    if onsets.getLastI - onsets.headI = 0 then Except.error "float division by zero"
    else Except.ok (((onsets.length : ℚ) - 1) / (onsets.getLastI - onsets.headI))
  else Except.ok 0

/-- The body of the `try` block of `analyze_speech`: the input is the joint
outcome of the external acoustic calls (an exception text, or the raw
values); the DDK division may itself raise. -/
def analyzeBody (input : Except String AcousticRaw) : Except String SpeechMetrics :=
  match input with
  | Except.error e => Except.error e
  | Except.ok raw =>
    match ddkRate raw.onsets with
    | Except.error e => Except.error e
    | Except.ok d =>
      Except.ok { mean_pitch := raw.mean_pitch, jitter := raw.jitter,
                  shimmer := raw.shimmer, hnr := raw.hnr, ddk_rate := d }

/-- `analyze_speech`: run the body; any exception is caught and routed — if
its text contains "Pitch" the fixed pitch message is returned, otherwise the
generic message around the exception text. -/
def analyze_speech (input : Except String AcousticRaw) : SpeechResult :=
  match analyzeBody input with
  | Except.ok m => SpeechResult.metrics m
  | Except.error e =>
    if strContains e "Pitch" then SpeechResult.error pitchErrorMsg
    else SpeechResult.error (genericErrorMsg e)

/-! ## Helper lemmas -/

lemma max_pos_of_sum (l r n : ℤ) (hn : 0 ≤ n) (h : n < l + r) : 0 < max l r := by
  rcases le_total l r with h' | h'
  · rw [max_eq_right h']; omega
  · rw [max_eq_left h']; omega

lemma max_cast_pos (l r : ℤ) (h : 0 < max l r) : (0 : ℚ) < max (l : ℚ) (r : ℚ) := by
  rw [← Int.cast_max]
  exact_mod_cast h

lemma symmetryScore_le_100 (l r : ℤ) (h : 0 < max l r) : symmetryScore l r ≤ 100 := by
  unfold symmetryScore
  have hmax : (0 : ℚ) < max (l : ℚ) (r : ℚ) := max_cast_pos l r h
  have hmin : min (l : ℚ) (r : ℚ) ≤ max (l : ℚ) (r : ℚ) := min_le_max
  have hdiv : min (l : ℚ) (r : ℚ) / max (l : ℚ) (r : ℚ) ≤ 1 := (div_le_one hmax).mpr hmin
  nlinarith

lemma symmetryScore_nonneg (l r : ℤ) (hl : 0 ≤ l) (hr : 0 ≤ r) : 0 ≤ symmetryScore l r := by
  unfold symmetryScore
  have hl' : (0 : ℚ) ≤ (l : ℚ) := by exact_mod_cast hl
  have hr' : (0 : ℚ) ≤ (r : ℚ) := by exact_mod_cast hr
  have hmin : (0 : ℚ) ≤ min (l : ℚ) (r : ℚ) := le_min hl' hr'
  have hmax : (0 : ℚ) ≤ max (l : ℚ) (r : ℚ) := le_max_of_le_left hl'
  positivity

lemma symmetryScore_eq_100_iff (l r : ℤ) (h : 0 < max l r) :
    symmetryScore l r = 100 ↔ l = r := by
  unfold symmetryScore
  have hmax : (0 : ℚ) < max (l : ℚ) (r : ℚ) := max_cast_pos l r h
  have hne : max (l : ℚ) (r : ℚ) ≠ 0 := ne_of_gt hmax
  constructor
  · intro he
    have h100 : (100 : ℚ) ≠ 0 := by norm_num
    have hdiv : min (l : ℚ) (r : ℚ) / max (l : ℚ) (r : ℚ) = 1 :=
      mul_right_cancel₀ h100 (by linarith)
    have heq : min (l : ℚ) (r : ℚ) = max (l : ℚ) (r : ℚ) :=
      (div_eq_one_iff_eq hne).mp hdiv
    have : (l : ℚ) = (r : ℚ) := by
      rcases le_total (l : ℚ) (r : ℚ) with h' | h'
      · rw [min_eq_left h', max_eq_right h'] at heq; linarith
      · rw [min_eq_right h', max_eq_left h'] at heq; linarith
    exact_mod_cast this
  · intro he
    subst he
    rw [max_self] at hne
    rw [min_self, max_self, div_self hne, one_mul]

lemma transform_none (st : FaceState) : st.transform none = (st, []) := rfl

lemma processFrames_replicate_none (st : FaceState) (n : ℕ) :
    processFrames st (List.replicate n none) = st := by
  induction n with
  | zero => rfl
  | succ k ih =>
    rw [List.replicate_succ]
    simpa [processFrames, transform_none] using ih

/-! ## Claim theorems -/

/-- Claim C1 (amended): whenever the metric pair passes the noise threshold,
the Smile symmetry score lies in [0, 100] (0 occurs when one side's
displacement is zero), the RaiseEyebrows symmetry score is at most 100 (it
can be 0 or negative when one side's signed displacement is non-positive),
and in both tasks the score equals 100 exactly when left equals right. -/
theorem c1_symmetry_score_range (b c : Coords) :
    (10 < smileLeft b c + smileRight b c →
      0 ≤ symmetryScore (smileLeft b c) (smileRight b c) ∧
      symmetryScore (smileLeft b c) (smileRight b c) ≤ 100 ∧
      (symmetryScore (smileLeft b c) (smileRight b c) = 100 ↔ smileLeft b c = smileRight b c)) ∧
    (5 < raiseLeft b c + raiseRight b c →
      symmetryScore (raiseLeft b c) (raiseRight b c) ≤ 100 ∧
      (symmetryScore (raiseLeft b c) (raiseRight b c) = 100 ↔ raiseLeft b c = raiseRight b c)) := by
  constructor
  · intro h
    have hmax : 0 < max (smileLeft b c) (smileRight b c) :=
      max_pos_of_sum _ _ 10 (by norm_num) h
    exact ⟨symmetryScore_nonneg _ _ (abs_nonneg _) (abs_nonneg _),
      symmetryScore_le_100 _ _ hmax, symmetryScore_eq_100_iff _ _ hmax⟩
  · intro h
    have hmax : 0 < max (raiseLeft b c) (raiseRight b c) :=
      max_pos_of_sum _ _ 5 (by norm_num) h
    exact ⟨symmetryScore_le_100 _ _ hmax, symmetryScore_eq_100_iff _ _ hmax⟩

/-- Witness for C1 at the spec's own scenario extended with an eyebrow raise
of 10 px left and 20 px right. -/
theorem c1_symmetry_score_range_witness :
    0 ≤ symmetryScore
        (smileLeft ⟨(100,200),(300,200),(0,10),(0,20),(0,0),(0,0),(0,0),(0,0),(0,0)⟩
          ⟨(90,200),(320,200),(0,0),(0,0),(0,0),(0,0),(0,0),(0,0),(0,0)⟩)
        (smileRight ⟨(100,200),(300,200),(0,10),(0,20),(0,0),(0,0),(0,0),(0,0),(0,0)⟩
          ⟨(90,200),(320,200),(0,0),(0,0),(0,0),(0,0),(0,0),(0,0),(0,0)⟩) ∧
    (symmetryScore
        (raiseLeft ⟨(100,200),(300,200),(0,10),(0,20),(0,0),(0,0),(0,0),(0,0),(0,0)⟩
          ⟨(90,200),(320,200),(0,0),(0,0),(0,0),(0,0),(0,0),(0,0),(0,0)⟩)
        (raiseRight ⟨(100,200),(300,200),(0,10),(0,20),(0,0),(0,0),(0,0),(0,0),(0,0)⟩
          ⟨(90,200),(320,200),(0,0),(0,0),(0,0),(0,0),(0,0),(0,0),(0,0)⟩) = 100 ↔
      raiseLeft ⟨(100,200),(300,200),(0,10),(0,20),(0,0),(0,0),(0,0),(0,0),(0,0)⟩
          ⟨(90,200),(320,200),(0,0),(0,0),(0,0),(0,0),(0,0),(0,0),(0,0)⟩ =
        raiseRight ⟨(100,200),(300,200),(0,10),(0,20),(0,0),(0,0),(0,0),(0,0),(0,0)⟩
          ⟨(90,200),(320,200),(0,0),(0,0),(0,0),(0,0),(0,0),(0,0),(0,0)⟩) :=
  ⟨((c1_symmetry_score_range _ _).1 (by decide)).1,
   ((c1_symmetry_score_range _ _).2 (by decide)).2⟩

/-- Counterexample to C1 as stated: with a zero left displacement the Smile
score is 0, outside (0, 100], although the pair passes the 10 px threshold;
with a negative left eyebrow displacement the RaiseEyebrows score is -25,
also outside (0, 100], although the pair passes the 5 px threshold. -/
theorem c1_claim_counterexample :
    (10 < smileLeft ⟨(100,200),(300,200),(0,0),(0,0),(0,0),(0,0),(0,0),(0,0),(0,0)⟩
        ⟨(100,200),(320,200),(0,0),(0,0),(0,0),(0,0),(0,0),(0,0),(0,0)⟩ +
      smileRight ⟨(100,200),(300,200),(0,0),(0,0),(0,0),(0,0),(0,0),(0,0),(0,0)⟩
        ⟨(100,200),(320,200),(0,0),(0,0),(0,0),(0,0),(0,0),(0,0),(0,0)⟩ ∧
     symmetryScore
        (smileLeft ⟨(100,200),(300,200),(0,0),(0,0),(0,0),(0,0),(0,0),(0,0),(0,0)⟩
          ⟨(100,200),(320,200),(0,0),(0,0),(0,0),(0,0),(0,0),(0,0),(0,0)⟩)
        (smileRight ⟨(100,200),(300,200),(0,0),(0,0),(0,0),(0,0),(0,0),(0,0),(0,0)⟩
          ⟨(100,200),(320,200),(0,0),(0,0),(0,0),(0,0),(0,0),(0,0),(0,0)⟩) = 0) ∧
    (5 < raiseLeft ⟨(0,0),(0,0),(0,0),(0,16),(0,0),(0,0),(0,0),(0,0),(0,0)⟩
        ⟨(0,0),(0,0),(0,4),(0,0),(0,0),(0,0),(0,0),(0,0),(0,0)⟩ +
      raiseRight ⟨(0,0),(0,0),(0,0),(0,16),(0,0),(0,0),(0,0),(0,0),(0,0)⟩
        ⟨(0,0),(0,0),(0,4),(0,0),(0,0),(0,0),(0,0),(0,0),(0,0)⟩ ∧
     symmetryScore
        (raiseLeft ⟨(0,0),(0,0),(0,0),(0,16),(0,0),(0,0),(0,0),(0,0),(0,0)⟩
          ⟨(0,0),(0,0),(0,4),(0,0),(0,0),(0,0),(0,0),(0,0),(0,0)⟩)
        (raiseRight ⟨(0,0),(0,0),(0,0),(0,16),(0,0),(0,0),(0,0),(0,0),(0,0)⟩
          ⟨(0,0),(0,0),(0,4),(0,0),(0,0),(0,0),(0,0),(0,0),(0,0)⟩) = -25) := by
  refine ⟨⟨by decide, ?_⟩, ⟨by decide, ?_⟩⟩ <;>
    norm_num [symmetryScore, smileLeft, smileRight, raiseLeft, raiseRight, min_def, max_def]

/-- Claim C2 (amended): when a scoring task is active while the Baseline
Store is empty, no score is emitted for that frame — but no visible
"no baseline" report is emitted either: the whole scoring block is silently
skipped and the frame produces no annotation at all, leaving the state
unchanged. -/
theorem c2_no_baseline_silently_skipped (st : FaceState) (c : Coords)
    (hb : st.baseline = none)
    (ht : st.task = FaceTask.smile ∨ st.task = FaceTask.raiseEyebrows ∨
      st.task = FaceTask.closeEyesTightly) :
    st.transform (some c) = (st, []) := by
  obtain ⟨t, bl⟩ := st
  simp only at hb ht
  subst hb
  rcases ht with h | h | h <;> subst h <;> rfl

/-- Witness for C2 at the RaiseEyebrows task and an arbitrary snapshot. -/
theorem c2_no_baseline_silently_skipped_witness :
    FaceState.transform ⟨FaceTask.raiseEyebrows, none⟩
        (some ⟨(1,2),(3,4),(5,6),(7,8),(9,10),(11,12),(13,14),(15,16),(17,18)⟩)
      = (⟨FaceTask.raiseEyebrows, none⟩, []) :=
  c2_no_baseline_silently_skipped _ _ rfl (Or.inr (Or.inl rfl))

/-- Counterexample to C2 as stated: with the Smile task active and an empty
Baseline Store, the frame's output contains no annotation whatsoever — in
particular no visible "no baseline" error report. -/
theorem c2_claim_counterexample :
    (FaceState.transform ⟨FaceTask.smile, none⟩
        (some ⟨(100,200),(300,200),(0,0),(0,0),(0,0),(0,0),(0,0),(0,0),(0,0)⟩)).2 = [] := rfl

/-- Claim C6: with an active scoring task, a present baseline and a detected
face, a score annotation is emitted for the frame exactly when the task's
metric pair passes its noise threshold — strictly more than 10 px summed
displacement for Smile, strictly more than 5 px for RaiseEyebrows, and any
positive summed eyelid gap for CloseEyesTightly. -/
theorem c6_emission_iff_threshold (st : FaceState) (b c : Coords)
    (hb : st.baseline = some b) :
    (st.task = FaceTask.smile →
      ((st.transform (some c)).2 ≠ [] ↔ 10 < smileLeft b c + smileRight b c)) ∧
    (st.task = FaceTask.raiseEyebrows →
      ((st.transform (some c)).2 ≠ [] ↔ 5 < raiseLeft b c + raiseRight b c)) ∧
    (st.task = FaceTask.closeEyesTightly →
      ((st.transform (some c)).2 ≠ [] ↔ 0 < eyeLeft c + eyeRight c)) := by
  obtain ⟨t, bl⟩ := st
  simp only at hb
  subst hb
  refine ⟨fun h => ?_, fun h => ?_, fun h => ?_⟩ <;> subst h <;>
    simp only [FaceState.transform] <;> split <;> simp_all

/-- Witness for C6 at the Smile task: with the spec-scenario baseline, an
unmoved face passes no threshold and emits nothing, so the equivalence is
exercised at a concrete state. -/
theorem c6_emission_iff_threshold_witness :
    ((FaceState.transform ⟨FaceTask.smile,
        some ⟨(100,200),(300,200),(0,1),(0,2),(0,3),(0,4),(0,5),(0,6),(0,7)⟩⟩
        (some ⟨(90,200),(320,200),(0,1),(0,2),(0,3),(0,4),(0,5),(0,6),(0,7)⟩)).2 ≠ [] ↔
      10 < smileLeft ⟨(100,200),(300,200),(0,1),(0,2),(0,3),(0,4),(0,5),(0,6),(0,7)⟩
          ⟨(90,200),(320,200),(0,1),(0,2),(0,3),(0,4),(0,5),(0,6),(0,7)⟩ +
        smileRight ⟨(100,200),(300,200),(0,1),(0,2),(0,3),(0,4),(0,5),(0,6),(0,7)⟩
          ⟨(90,200),(320,200),(0,1),(0,2),(0,3),(0,4),(0,5),(0,6),(0,7)⟩) :=
  (c6_emission_iff_threshold _ _ _ rfl).1 rfl

/-- Claim C7: on the spec's concrete scenario — baseline mouth corners at
(100,200)/(300,200), current at (90,200)/(320,200) — the Smile metric pair
is left 10 and right 20, the sum 30 passes the 10 px threshold, and the
frame emits exactly the symmetry score 50. -/
theorem c7_spec_scenario :
    smileLeft ⟨(100,200),(300,200),(0,0),(0,0),(0,0),(0,0),(0,0),(0,0),(0,0)⟩
        ⟨(90,200),(320,200),(0,0),(0,0),(0,0),(0,0),(0,0),(0,0),(0,0)⟩ = 10 ∧
    smileRight ⟨(100,200),(300,200),(0,0),(0,0),(0,0),(0,0),(0,0),(0,0),(0,0)⟩
        ⟨(90,200),(320,200),(0,0),(0,0),(0,0),(0,0),(0,0),(0,0),(0,0)⟩ = 20 ∧
    10 < (10 : ℤ) + 20 ∧
    (FaceState.transform
        ⟨FaceTask.smile, some ⟨(100,200),(300,200),(0,0),(0,0),(0,0),(0,0),(0,0),(0,0),(0,0)⟩⟩
        (some ⟨(90,200),(320,200),(0,0),(0,0),(0,0),(0,0),(0,0),(0,0),(0,0)⟩)).2
      = [Display.smileSymmetry 50] := by
  refine ⟨by decide, by decide, by decide, ?_⟩
  simp [FaceState.transform]
  norm_num [smileLeft, smileRight, symmetryScore, min_def, max_def]

/-- Claim C8: from any state, selecting "Set Baseline" clears the Baseline
Store to empty, and after any number of face-less frames the next frame in
which a face is detected sets the store, by wholesale overwrite, to that
frame's Landmark Snapshot. -/
theorem c8_rebaseline_clears_then_overwrites (st : FaceState) (n : ℕ) (c : Coords) :
    (st.set_task FaceTask.setBaseline).baseline = none ∧
    (processFrames (st.set_task FaceTask.setBaseline)
        (List.replicate n none ++ [some c])).baseline = some c := by
  constructor
  · simp [FaceState.set_task]
  · have hset : st.set_task FaceTask.setBaseline = ⟨FaceTask.setBaseline, none⟩ := by
      simp [FaceState.set_task]
    rw [hset]
    have h1 : processFrames ⟨FaceTask.setBaseline, none⟩ (List.replicate n none ++ [some c])
        = processFrames (processFrames ⟨FaceTask.setBaseline, none⟩ (List.replicate n none))
            [some c] := by
      simp [processFrames, List.foldl_append]
    rw [h1, processFrames_replicate_none]
    rfl

lemma transform_points_extend (st : DexState) (now : ℚ) (d : Option (ℤ × ℤ)) :
    ∃ tail, (st.transform now d).points = st.points ++ tail := by
  by_cases h1 : st.task = DexTask.holdSteady
  · by_cases h2 : timeExceeded now st.start_time = true
    · rcases d with _ | p <;> exact ⟨[], by simp [DexState.transform, h1, h2]⟩
    · rcases d with _ | p
      · exact ⟨[], by simp [DexState.transform, h1, h2]⟩
      · by_cases h3 : st.tracking = true
        · exact ⟨[p], by simp [DexState.transform, h1, h2, h3]⟩
        · exact ⟨[], by simp [DexState.transform, h1, h2, h3]⟩
  · rcases d with _ | p
    · exact ⟨[], by simp [DexState.transform, h1]⟩
    · by_cases h3 : st.tracking = true
      · exact ⟨[p], by simp [DexState.transform, h1, h3]⟩
      · exact ⟨[], by simp [DexState.transform, h1, h3]⟩

/-- Claim C4 (amended): a frame on an already-closed window (tracking off and
task no longer "Hold Steady") is a no-op; when the task is "Hold Steady" and
strictly more than 10 seconds have elapsed, the window closes (tracking off,
task reset, clock dropped) and the frame's point is not appended; while at
most 10 seconds have elapsed a detected point is appended.  At exactly
`now - t_start = 10` the code does not close and still appends. -/
theorem c4_capture_window_behaviour (st : DexState) (now : ℚ) (d : Option (ℤ × ℤ)) :
    (st.tracking = false → st.task ≠ DexTask.holdSteady → st.transform now d = st) ∧
    (∀ t0, st.task = DexTask.holdSteady → st.start_time = some t0 → 10 < now - t0 →
      st.transform now d =
        { st with tracking := false, task := DexTask.noTask, start_time := none }) ∧
    (∀ t0 p, st.task = DexTask.holdSteady → st.start_time = some t0 → now - t0 ≤ 10 →
      st.tracking = true → d = some p →
      st.transform now d = { st with points := st.points ++ [p] }) := by
  refine ⟨fun htr htask => ?_, fun t0 htask hst h10 => ?_, fun t0 p htask hst h10 htr hd => ?_⟩
  · rcases d with _ | p <;> simp [DexState.transform, htask, htr]
  · have hexc : timeExceeded now st.start_time = true := by
      rw [hst]; simpa [timeExceeded] using h10
    rcases d with _ | p <;> simp [DexState.transform, htask, hexc]
  · have hexc : timeExceeded now st.start_time = false := by
      rw [hst]; simpa [timeExceeded] using not_lt.mpr h10
    subst hd
    simp [DexState.transform, htask, hexc, htr]

/-- Witness for C4: one second past the deadline the window closes and the
frame's point is discarded. -/
theorem c4_capture_window_behaviour_witness :
    DexState.transform ⟨DexTask.holdSteady, some 0, true, [(1,2)]⟩ 11 (some (5,5))
      = ⟨DexTask.noTask, none, false, [(1,2)]⟩ := by
  have h := (c4_capture_window_behaviour ⟨DexTask.holdSteady, some 0, true, [(1,2)]⟩ 11
    (some (5,5))).2.1 0 rfl rfl (by norm_num)
  exact h

/-- Counterexample to C4 as stated: at exactly `now - t_start = 10 = duration`
the window does not close (the code's guard is strict) and the frame's point
IS appended to the buffer. -/
theorem c4_claim_counterexample :
    DexState.transform ⟨DexTask.holdSteady, some 0, true, []⟩ 10 (some (5,5))
      = ⟨DexTask.holdSteady, some 0, true, [(5,5)]⟩ := by
  norm_num [DexState.transform, timeExceeded]

/-- Claim C9: the 10-second auto-close guard is gated on the active task
being "Hold Steady".  The start-tracking button enables tracking without
touching the task, and on any frame where the task is something else while
tracking is on, a detected fingertip is appended with no elapsed-time bound
— the state (tracking still on, clock untouched) never auto-closes. -/
theorem c9_no_autoclose_off_task (st : DexState) (now now0 : ℚ) (p : ℤ × ℤ) :
    ((startTracking st now0).task = st.task ∧ (startTracking st now0).tracking = true) ∧
    (st.task ≠ DexTask.holdSteady → st.tracking = true →
      st.transform now (some p) = { st with points := st.points ++ [p] }) := by
  refine ⟨⟨rfl, rfl⟩, fun htask htr => ?_⟩
  simp [DexState.transform, htask, htr]

/-- Witness for C9: with the task left at "None" and tracking forced on, a
frame a million seconds after the clock started still appends its point. -/
theorem c9_no_autoclose_off_task_witness :
    DexState.transform ⟨DexTask.noTask, some 0, true, []⟩ 1000000 (some (7,7))
      = ⟨DexTask.noTask, some 0, true, [(7,7)]⟩ := by
  have h := (c9_no_autoclose_off_task ⟨DexTask.noTask, some 0, true, []⟩ 1000000 0
    (7,7)).2 (by decide) rfl
  exact h

/-- Claim C3 (amended): closing the capture window does not invalidate the
Trajectory Buffer: no frame ever removes points (the auto-close keeps the
buffer intact), and a later batch-statistics call on a non-empty buffer
reuses whatever points are there.  The buffer is cleared only by re-selecting
"Hold Steady" or by the start-tracking button. -/
theorem c3_buffer_not_invalidated_on_close :
    (∀ (st : DexState) (now : ℚ) (d : Option (ℤ × ℤ)),
      ∃ tail, (st.transform now d).points = st.points ++ tail) ∧
    (∀ (st : DexState) (now : ℚ), (st.set_task DexTask.holdSteady now).points = []) ∧
    (∀ (st : DexState) (now : ℚ), (startTracking st now).points = []) ∧
    (∀ pts : List (ℤ × ℤ), pts ≠ [] →
      analyzeResults pts = some (steadiness pts, precision pts)) :=
  ⟨transform_points_extend,
   fun st now => by simp [DexState.set_task],
   fun st now => rfl,
   fun pts h => by simp [analyzeResults, h]⟩

/-- Witness for C3: batch statistics on the singleton buffer left over after
a close are computed, not rejected. -/
theorem c3_buffer_not_invalidated_on_close_witness :
    analyzeResults [(1,1)] = some (steadiness [(1,1)], precision [(1,1)]) :=
  c3_buffer_not_invalidated_on_close.2.2.2 [(1,1)] (by decide)

/-- Counterexample to C3 as stated: select "Hold Steady" at t = 0 (clearing a
stale point), collect (3,4) at t = 1, let the window auto-close at t = 12 —
the buffer still holds (3,4) after the close, and the analysis call consumes
it without any fresh start_capture. -/
theorem c3_claim_counterexample :
    (((DexState.set_task ⟨DexTask.noTask, none, false, [(99,99)]⟩ DexTask.holdSteady 0).transform 1
        (some (3,4))).transform 12 none)
      = ⟨DexTask.noTask, none, false, [(3,4)]⟩ ∧
    analyzeResults [(3,4)] ≠ none := by
  constructor
  · norm_num [DexState.set_task, DexState.transform, timeExceeded]
  · simp [analyzeResults]

lemma listMean_nonneg (xs : List ℝ) (h : ∀ x ∈ xs, 0 ≤ x) : 0 ≤ listMean xs :=
  div_nonneg (List.sum_nonneg h) (Nat.cast_nonneg _)

lemma listSum_eq_zero_iff (xs : List ℝ) (h : ∀ x ∈ xs, 0 ≤ x) :
    xs.sum = 0 ↔ ∀ x ∈ xs, x = 0 := by
  induction xs with
  | nil => simp
  | cons a as ih =>
    have ha : 0 ≤ a := h a (by simp)
    have has : ∀ x ∈ as, 0 ≤ x := fun x hx => h x (by simp [hx])
    have hsum : 0 ≤ as.sum := List.sum_nonneg has
    simp only [List.sum_cons, List.mem_cons]
    constructor
    · intro h0
      have ha0 : a = 0 := by linarith
      have hs0 : as.sum = 0 := by linarith
      have := (ih has).mp hs0
      intro x hx
      rcases hx with rfl | hx
      · exact ha0
      · exact this x hx
    · intro hall
      have ha0 : a = 0 := hall a (Or.inl rfl)
      have hs0 : as.sum = 0 := (ih has).mpr (fun x hx => hall x (Or.inr hx))
      rw [ha0, hs0, add_zero]

lemma listMean_eq_zero_iff (xs : List ℝ) (hne : xs ≠ []) (h : ∀ x ∈ xs, 0 ≤ x) :
    listMean xs = 0 ↔ ∀ x ∈ xs, x = 0 := by
  unfold listMean
  have hlen : (xs.length : ℝ) ≠ 0 :=
    Nat.cast_ne_zero.mpr (fun h0 => hne (List.length_eq_zero.mp h0))
  rw [div_eq_zero_iff]
  simp only [hlen, or_false]
  exact listSum_eq_zero_iff xs h

lemma listSum_const (xs : List ℝ) (a : ℝ) (h : ∀ x ∈ xs, x = a) :
    xs.sum = xs.length * a := by
  induction xs with
  | nil => simp
  | cons b bs ih =>
    have hb : b = a := h b (by simp)
    have hbs := ih (fun x hx => h x (List.mem_cons_of_mem _ hx))
    simp only [List.sum_cons, List.length_cons, hb, hbs]
    push_cast
    ring

lemma listMean_const (xs : List ℝ) (a : ℝ) (hne : xs ≠ []) (h : ∀ x ∈ xs, x = a) :
    listMean xs = a := by
  unfold listMean
  rw [listSum_const xs a h]
  have hlen : (xs.length : ℝ) ≠ 0 :=
    Nat.cast_ne_zero.mpr (fun h0 => hne (List.length_eq_zero.mp h0))
  field_simp

lemma stdDev_nonneg (xs : List ℝ) : 0 ≤ stdDev xs := Real.sqrt_nonneg _

lemma stdDev_eq_zero_iff (xs : List ℝ) (hne : xs ≠ []) :
    stdDev xs = 0 ↔ ∀ x ∈ xs, x = listMean xs := by
  unfold stdDev
  have hnn : ∀ y ∈ xs.map (fun x => (x - listMean xs) ^ 2), 0 ≤ y := by
    intro y hy
    obtain ⟨x, _, rfl⟩ := List.mem_map.mp hy
    positivity
  have hmapne : xs.map (fun x => (x - listMean xs) ^ 2) ≠ [] := by simp [hne]
  rw [Real.sqrt_eq_zero (listMean_nonneg _ hnn),
    listMean_eq_zero_iff _ hmapne hnn]
  constructor
  · intro h x hx
    have hsq : (x - listMean xs) ^ 2 = 0 := h _ (List.mem_map_of_mem _ hx)
    have := (pow_eq_zero_iff two_ne_zero).mp hsq
    linarith [sub_eq_zero.mp this]
  · intro h y hy
    obtain ⟨x, hx, rfl⟩ := List.mem_map.mp hy
    rw [h x hx]
    ring

lemma allEq_mean_iff (xs : List ℝ) (hne : xs ≠ []) :
    (∀ x ∈ xs, x = listMean xs) ↔ ∀ x ∈ xs, ∀ y ∈ xs, x = y := by
  constructor
  · intro h x hx y hy
    rw [h x hx, h y hy]
  · intro h x hx
    exact (listMean_const xs x hne (fun z hz => h z hz x hx)).symm

lemma euclidDist_nonneg (p q : ℤ × ℤ) : 0 ≤ euclidDist p q := Real.sqrt_nonneg _

lemma euclidDist_eq_zero_iff (p q : ℤ × ℤ) : euclidDist p q = 0 ↔ p = q := by
  unfold euclidDist
  rw [Real.sqrt_eq_zero (by positivity)]
  constructor
  · intro h
    have ha : ((p.1 - q.1 : ℤ) : ℝ) ^ 2 = 0 := by
      nlinarith [sq_nonneg ((p.1 - q.1 : ℤ) : ℝ), sq_nonneg ((p.2 - q.2 : ℤ) : ℝ)]
    have hb : ((p.2 - q.2 : ℤ) : ℝ) ^ 2 = 0 := by
      nlinarith [sq_nonneg ((p.1 - q.1 : ℤ) : ℝ), sq_nonneg ((p.2 - q.2 : ℤ) : ℝ)]
    have ha' : (p.1 - q.1 : ℤ) = 0 := by
      exact_mod_cast (pow_eq_zero_iff two_ne_zero).mp ha
    have hb' : (p.2 - q.2 : ℤ) = 0 := by
      exact_mod_cast (pow_eq_zero_iff two_ne_zero).mp hb
    exact Prod.ext (by omega) (by omega)
  · rintro rfl
    simp

/-- Claim C5: on a non-empty trajectory buffer both batch statistics are
non-negative; the steadiness score (mean of the coordinate-wise standard
deviations) vanishes exactly when all buffered points are identical, and the
precision score (mean distance to the target centre) vanishes exactly when
every buffered point is the target centre itself. -/
theorem c5_batch_statistics (pts : List (ℤ × ℤ)) (hne : pts ≠ []) :
    0 ≤ steadiness pts ∧ 0 ≤ precision pts ∧
    (steadiness pts = 0 ↔ ∀ p ∈ pts, ∀ q ∈ pts, p = q) ∧
    (precision pts = 0 ↔ ∀ p ∈ pts, p = TARGET_POS) := by
  have hxs : pts.map (fun p => (p.1 : ℝ)) ≠ [] := by simp [hne]
  have hys : pts.map (fun p => (p.2 : ℝ)) ≠ [] := by simp [hne]
  have hdn : ∀ y ∈ pts.map (fun p => euclidDist p TARGET_POS), 0 ≤ y := by
    intro y hy
    obtain ⟨p, _, rfl⟩ := List.mem_map.mp hy
    exact euclidDist_nonneg _ _
  have hdne : pts.map (fun p => euclidDist p TARGET_POS) ≠ [] := by simp [hne]
  refine ⟨?_, ?_, ?_, ?_⟩
  · unfold steadiness
    have h1 := stdDev_nonneg (pts.map (fun p => (p.1 : ℝ)))
    have h2 := stdDev_nonneg (pts.map (fun p => (p.2 : ℝ)))
    linarith
  · exact listMean_nonneg _ hdn
  · unfold steadiness
    constructor
    · intro h
      have h1 := stdDev_nonneg (pts.map (fun p => (p.1 : ℝ)))
      have h2 := stdDev_nonneg (pts.map (fun p => (p.2 : ℝ)))
      have hx0 : stdDev (pts.map (fun p => (p.1 : ℝ))) = 0 := by linarith
      have hy0 : stdDev (pts.map (fun p => (p.2 : ℝ))) = 0 := by linarith
      have hxall := (allEq_mean_iff _ hxs).mp ((stdDev_eq_zero_iff _ hxs).mp hx0)
      have hyall := (allEq_mean_iff _ hys).mp ((stdDev_eq_zero_iff _ hys).mp hy0)
      intro p hp q hq
      have hx := hxall _ (List.mem_map_of_mem _ hp) _ (List.mem_map_of_mem _ hq)
      have hy := hyall _ (List.mem_map_of_mem _ hp) _ (List.mem_map_of_mem _ hq)
      have hx' : p.1 = q.1 := by exact_mod_cast hx
      have hy' : p.2 = q.2 := by exact_mod_cast hy
      exact Prod.ext hx' hy'
    · intro h
      have hxall : ∀ x ∈ pts.map (fun p => (p.1 : ℝ)),
          ∀ y ∈ pts.map (fun p => (p.1 : ℝ)), x = y := by
        intro x hx y hy
        obtain ⟨p, hp, rfl⟩ := List.mem_map.mp hx
        obtain ⟨q, hq, rfl⟩ := List.mem_map.mp hy
        rw [h p hp q hq]
      have hyall : ∀ x ∈ pts.map (fun p => (p.2 : ℝ)),
          ∀ y ∈ pts.map (fun p => (p.2 : ℝ)), x = y := by
        intro x hx y hy
        obtain ⟨p, hp, rfl⟩ := List.mem_map.mp hx
        obtain ⟨q, hq, rfl⟩ := List.mem_map.mp hy
        rw [h p hp q hq]
      rw [(stdDev_eq_zero_iff _ hxs).mpr ((allEq_mean_iff _ hxs).mpr hxall),
        (stdDev_eq_zero_iff _ hys).mpr ((allEq_mean_iff _ hys).mpr hyall)]
      norm_num
  · unfold precision
    rw [listMean_eq_zero_iff _ hdne hdn]
    constructor
    · intro h p hp
      exact (euclidDist_eq_zero_iff p TARGET_POS).mp (h _ (List.mem_map_of_mem _ hp))
    · intro h y hy
      obtain ⟨p, hp, rfl⟩ := List.mem_map.mp hy
      exact (euclidDist_eq_zero_iff p TARGET_POS).mpr (h p hp)

/-- Witness for C5 at the singleton buffer holding the target centre. -/
theorem c5_batch_statistics_witness :
    0 ≤ steadiness [(320, 240)] ∧ 0 ≤ precision [(320, 240)] ∧
    (steadiness [(320, 240)] = 0 ↔
      ∀ p ∈ [((320 : ℤ), (240 : ℤ))], ∀ q ∈ [((320 : ℤ), (240 : ℤ))], p = q) ∧
    (precision [(320, 240)] = 0 ↔ ∀ p ∈ [((320 : ℤ), (240 : ℤ))], p = TARGET_POS) :=
  c5_batch_statistics [(320, 240)] (by decide)

/-- Claim C10: `analyze_speech` is total at its public interface — for every
joint outcome of the external acoustic calls it returns either the five
metrics or an error dict, never propagating the exception; an exception
whose text contains "Pitch" is routed to the fixed could-not-detect-pitch
message and every other exception to the generic message; and the DDK-rate
division is guarded, yielding rate 0 whenever fewer than two onsets were
detected. -/
theorem c10_analyze_speech_total (input : Except String AcousticRaw) :
    ((∃ m, analyze_speech input = SpeechResult.metrics m) ∨
      (∃ msg, analyze_speech input = SpeechResult.error msg)) ∧
    (∀ e, input = Except.error e → strContains e "Pitch" = true →
      analyze_speech input = SpeechResult.error pitchErrorMsg) ∧
    (∀ e, input = Except.error e → strContains e "Pitch" = false →
      analyze_speech input = SpeechResult.error (genericErrorMsg e)) ∧
    (∀ raw, input = Except.ok raw → raw.onsets.length < 2 →
      analyze_speech input = SpeechResult.metrics
        { mean_pitch := raw.mean_pitch, jitter := raw.jitter, shimmer := raw.shimmer,
          hnr := raw.hnr, ddk_rate := 0 }) := by
  refine ⟨?_, fun e he hc => ?_, fun e he hc => ?_, fun raw hr hlen => ?_⟩
  · cases h : analyze_speech input with
    | metrics m => exact Or.inl ⟨m, rfl⟩
    | error msg => exact Or.inr ⟨msg, rfl⟩
  · subst he
    simp [analyze_speech, analyzeBody, hc]
  · subst he
    simp [analyze_speech, analyzeBody, hc]
  · subst hr
    have hnot : ¬ (1 < raw.onsets.length) := by omega
    simp [analyze_speech, analyzeBody, ddkRate, hnot]

/-- Witness for C10: a praat exception mentioning "Pitch" yields the fixed
pitch message, and a successful run with a single detected onset yields the
five metrics with DDK rate 0. -/
theorem c10_analyze_speech_total_witness :
    analyze_speech (Except.error "To Pitch failed") = SpeechResult.error pitchErrorMsg ∧
    analyze_speech (Except.ok ⟨120, 1, 2, 15, [5]⟩)
      = SpeechResult.metrics ⟨120, 1, 2, 15, 0⟩ :=
  ⟨(c10_analyze_speech_total (Except.error "To Pitch failed")).2.1 _ rfl (by decide),
   (c10_analyze_speech_total (Except.ok ⟨120, 1, 2, 15, [5]⟩)).2.2.2 _ rfl (by decide)⟩

end NeuroToolkit
